import Mathlib

/-!
Verification of the Voynich Manuscript Research Platform API client
(docs/voynich_api_client.py) against its specification.

The client and the relevant parts of its CLI entry point are shallowly
embedded below.  HTTP transport is modelled as a pure function from
requests to responses; the behaviour of the requests library that the
client invokes (requests.get, requests.post, Response.raise_for_status,
Response.json) is modelled from the documented semantics of that library.
Printing and network calls are recorded explicitly in the result values.
-/

/-- JSON values, the value domain of all request parameters, request
bodies and response bodies handled by the client.  Numbers are modelled
as integers: every number the client ever places in a request is an
integer argument of a client method. -/
inductive Json where
  | null : Json
  | bool : Bool → Json
  | num : Int → Json
  | str : String → Json
  | arr : List Json → Json
  | obj : List (String × Json) → Json

/-- Boolean test that a character list starts with another. -/
def startsB : List Char → List Char → Bool
  | [], _ => true
  | _ :: _, [] => false
  | a :: as, b :: bs => a == b && startsB as bs

/-- Boolean substring test on character lists. -/
def hasSubB (needle : List Char) : List Char → Bool
  | [] => startsB needle []
  | c :: rest => startsB needle (c :: rest) || hasSubB needle rest

/-- Substring test on strings: strContains hay needle is true when
needle occurs contiguously inside hay. -/
def strContains (hay needle : String) : Bool :=
  hasSubB needle.data hay.data

/-- Models Python str.rstrip applied with the slash character: removes
every trailing slash (used on the base URL in the constructor, source
line 43). -/
def rstripSlashes (s : String) : String :=
  String.mk ((s.data.reverse.dropWhile (fun c => c == '/')).reverse)

/-- Models Python str.lstrip applied with the slash character: removes
every leading slash (used on the endpoint in the request helper, source
line 67). -/
def lstripSlashes (s : String) : String :=
  String.mk (s.data.dropWhile (fun c => c == '/'))

/-- Models Python str.upper on the ASCII strings used as HTTP method
names (source lines 70 and 72). -/
def pyUpper (s : String) : String :=
  String.mk (s.data.map Char.toUpper)

/-- A lower-case hexadecimal digit. -/
def hexDigit (n : Nat) : Char :=
  if n < 10 then Char.ofNat (48 + n) else Char.ofNat (87 + n)

/-- Models the escaping json.dumps applies to one character of a string
(default ensure_ascii setting; characters outside the basic multilingual
plane are out of the modelled range and do not occur in this program). -/
def escapeChar (c : Char) : String :=
  if c = '\"' then "\\\""
  else if c = '\\' then "\\\\"
  else if c = '\n' then "\\n"
  else if c = '\t' then "\\t"
  else if c = '\r' then "\\r"
  else if c = '\x08' then "\\b"
  else if c = '\x0c' then "\\f"
  else if c.toNat < 32 then
    "\\u00" ++ String.mk [hexDigit (c.toNat / 16), hexDigit (c.toNat % 16)]
  else if 127 < c.toNat then
    "\\u" ++ String.mk [hexDigit (c.toNat / 4096 % 16), hexDigit (c.toNat / 256 % 16),
      hexDigit (c.toNat / 16 % 16), hexDigit (c.toNat % 16)]
  else String.mk [c]

/-- A JSON string literal as json.dumps renders it. -/
def quoteJson (s : String) : String :=
  "\"" ++ String.join (s.data.map escapeChar) ++ "\""

/-- Indentation produced by json.dumps with indent set to 2 at a given
nesting level. -/
def pad (lvl : Nat) : String :=
  String.mk (List.replicate (2 * lvl) ' ')

mutual

/-- Models json.dumps(value, indent=2): the serialization used by the
client when printing error details (source line 86) and when formatting
output (source line 266). -/
def dumpsVal : Nat → Json → String
  | _, .null => "null"
  | _, .bool true => "true"
  | _, .bool false => "false"
  | _, .num n => toString n
  | _, .str s => quoteJson s
  | _, .arr [] => "[]"
  | lvl, .arr (x :: xs) =>
      "[\n" ++ String.intercalate ",\n" (dumpsList (lvl + 1) (x :: xs)) ++
        "\n" ++ pad lvl ++ "]"
  | _, .obj [] => "\x7b\x7d"
  | lvl, .obj (f :: fs) =>
      "\x7b\n" ++ String.intercalate ",\n" (dumpsFields (lvl + 1) (f :: fs)) ++
        "\n" ++ pad lvl ++ "\x7d"

/-- Renders the elements of a JSON array, one indented line each. -/
def dumpsList : Nat → List Json → List String
  | _, [] => []
  | lvl, x :: xs => (pad lvl ++ dumpsVal lvl x) :: dumpsList lvl xs

/-- Renders the key-value pairs of a JSON object, one indented line
each, keys in insertion order as json.dumps does by default. -/
def dumpsFields : Nat → List (String × Json) → List String
  | _, [] => []
  | lvl, (k, v) :: fs =>
      (pad lvl ++ quoteJson k ++ ": " ++ dumpsVal lvl v) :: dumpsFields lvl fs

end

/-- Top-level json.dumps with indent 2, as used by the client. -/
def json_dumps (j : Json) : String :=
  dumpsVal 0 j

/-- HTTP methods the transport model distinguishes; the client only
ever issues these two (source lines 70-75). -/
inductive HttpMethod where
  | GET : HttpMethod
  | POST : HttpMethod

/-- A single HTTP request as the requests library would receive it from
the client: requests.get url headers params (source line 71) or
requests.post url headers json (source line 73). -/
structure HttpRequest where
  method : HttpMethod
  url : String
  headers : List (String × String)
  params : Option (List (String × Json))
  json_data : Option Json

/-- An HTTP response as seen by the client: status code, reason phrase,
raw body text, and the result of Response.json parsing of that text
(some value when the body parses as JSON, none when it does not). -/
structure HttpResponse where
  status_code : Nat
  reason : String
  url : String
  text : String
  json_body : Option Json

/-- The mocked transport: a pure function from a request to the
response the server would return for it. -/
def Transport : Type :=
  HttpRequest → HttpResponse

/-- The Python exceptions the client can surface.  valueError models
ValueError (source lines 75, 215, 250); httpError models
requests.exceptions.HTTPError raised by raise_for_status, which carries
its message and the response object; jsonDecodeError models the
requests JSONDecodeError raised by Response.json on a non-JSON success
body. -/
inductive PyError where
  | valueError : String → PyError
  | httpError : String → HttpResponse → PyError
  | jsonDecodeError : PyError

/-- The complete observable effect of one client method call: the
network requests performed, the lines printed to standard output, and
the returned JSON value or raised exception. -/
structure MRResult where
  calls : List HttpRequest
  printed : List String
  outcome : Except PyError Json

/-- Result of a call that raises a ValueError before any network call
is made and prints nothing. -/
def noCallValueError (msg : String) : MRResult :=
  { calls := [], printed := [], outcome := .error (.valueError msg) }

/-- The client object: normalized base URL, API key, fixed header set
(source lines 43-48). -/
structure VoynichApiClient where
  base_url : String
  api_key : String
  headers : List (String × String)

/-- The constructor: strips trailing slashes from the base URL and
stores the Authorization and Content-Type headers (source lines 35-48). -/
def VoynichApiClient.init (base_url api_key : String) : VoynichApiClient :=
  { base_url := rstripSlashes base_url
    api_key := api_key
    headers := [("Authorization", "Bearer " ++ api_key),
                ("Content-Type", "application/json")] }

/-- The target URL built by the request helper (source line 67). -/
def makeUrl (c : VoynichApiClient) (endpoint : String) : String :=
  c.base_url ++ "/api/external/" ++ lstripSlashes endpoint

/-- The GET request issued by requests.get(url, headers, params)
(source line 71). -/
def getReq (c : VoynichApiClient) (endpoint : String)
    (params : Option (List (String × Json))) : HttpRequest :=
  { method := .GET, url := makeUrl c endpoint, headers := c.headers,
    params := params, json_data := none }

/-- The POST request issued by requests.post(url, headers, json)
(source line 73). -/
def postReq (c : VoynichApiClient) (endpoint : String)
    (data : Option Json) : HttpRequest :=
  { method := .POST, url := makeUrl c endpoint, headers := c.headers,
    params := none, json_data := data }

/-- The message of the HTTPError raised by Response.raise_for_status,
modelled from the requests library: it is built from the status code,
the reason phrase and the URL, never from the response body. -/
def httpErrorMessage (r : HttpResponse) : String :=
  if r.status_code ≤ 499 then
    toString r.status_code ++ " Client Error: " ++ r.reason ++ " for url: " ++ r.url
  else
    toString r.status_code ++ " Server Error: " ++ r.reason ++ " for url: " ++ r.url

/-- The message of the JSONDecodeError the requests library raises when
Response.json is applied to an empty non-JSON body. -/
def jsonDecodeErrorMsg : String :=
  "Expecting value: line 1 column 1 (char 0)"

/-- Response handling of the request helper (source lines 77-90):
raise_for_status raises an HTTPError for status codes 400-599; the
except block prints the error, then prints the parsed JSON error body
when it parses (json.dumps with indent 2) and otherwise the status code
and raw body text, and re-raises; on success the parsed JSON body is
returned. -/
def handle_response (calls : List HttpRequest) (r : HttpResponse) : MRResult :=
  if 400 ≤ r.status_code ∧ r.status_code ≤ 599 then
    let msg := httpErrorMessage r
    let details :=
      match r.json_body with
      | some j => ["Error details: " ++ json_dumps j]
      | none => ["Status code: " ++ toString r.status_code,
                 "Response body: " ++ r.text]
    { calls := calls
      printed := ("API request error: " ++ msg) :: details
      outcome := .error (.httpError msg r) }
  else
    match r.json_body with
    | some j => { calls := calls, printed := [], outcome := .ok j }
    | none =>
        { calls := calls
          printed := ["API request error: " ++ jsonDecodeErrorMsg]
          outcome := .error .jsonDecodeError }

/-- The request helper VoynichApiClient._make_request (source lines
50-90): builds the URL, dispatches on the uppercased method, issues the
request through the transport and handles the response; any other
method raises a ValueError echoing the method string before any network
call. -/
def _make_request (t : Transport) (c : VoynichApiClient)
    (method endpoint : String) (params : Option (List (String × Json)))
    (data : Option Json) : MRResult :=
  if pyUpper method = "GET" then
    handle_response [getReq c endpoint params] (t (getReq c endpoint params))
  else if pyUpper method = "POST" then
    handle_response [postReq c endpoint data] (t (postReq c endpoint data))
  else
    noCallValueError ("Unsupported HTTP method: " ++ method)

/-- The request _make_request would issue for the given arguments, when
the method is supported. -/
def request_for (c : VoynichApiClient) (method endpoint : String)
    (params : Option (List (String × Json))) (data : Option Json) :
    Option HttpRequest :=
  if pyUpper method = "GET" then some (getReq c endpoint params)
  else if pyUpper method = "POST" then some (postReq c endpoint data)
  else none

/-- Default offset of list_pages in the source signature (line 92). -/
def list_pages_default_offset : Int := 0

/-- Default limit of list_pages in the source signature (line 92). -/
def list_pages_default_limit : Int := 20

/-- VoynichApiClient.list_pages (source lines 92-103). -/
def list_pages (t : Transport) (c : VoynichApiClient)
    (offset limit : Int) : MRResult :=
  _make_request t c "GET" "pages"
    (some [("offset", Json.num offset), ("limit", Json.num limit)]) none

/-- VoynichApiClient.get_page (source lines 105-115). -/
def get_page (t : Transport) (c : VoynichApiClient) (page_id : Int) : MRResult :=
  _make_request t c "GET" ("pages/" ++ toString page_id) none none

/-- VoynichApiClient.list_symbols (source lines 117-127). -/
def list_symbols (t : Transport) (c : VoynichApiClient) (page_id : Int) : MRResult :=
  _make_request t c "GET" ("symbols/page/" ++ toString page_id) none none

/-- Python truthiness of the optional category string argument: an
absent value and the empty string are both falsy. -/
def pyTruthyOptStr : Option String → Bool
  | none => false
  | some s => !(s == "")

/-- Python truthiness of the optional metadata dict argument: an absent
value and an empty dict are both falsy. -/
def pyTruthyOptDict : Option (List (String × Json)) → Bool
  | none => false
  | some d => !d.isEmpty

/-- The request body built by create_symbol (source lines 146-158): the
five mandatory fields, then category and metadata appended only when
truthy. -/
def create_symbol_data (page_id x y width height : Int)
    (category : Option String) (metadata : Option (List (String × Json))) :
    List (String × Json) :=
  let base := [("pageId", Json.num page_id), ("x", Json.num x),
               ("y", Json.num y), ("width", Json.num width),
               ("height", Json.num height)]
  let d1 := if pyTruthyOptStr category then
      base ++ [("category", Json.str (category.getD ""))]
    else base
  if pyTruthyOptDict metadata then
    d1 ++ [("metadata", Json.obj (metadata.getD []))]
  else d1

/-- VoynichApiClient.create_symbol (source lines 129-160). -/
def create_symbol (t : Transport) (c : VoynichApiClient)
    (page_id x y width height : Int) (category : Option String)
    (metadata : Option (List (String × Json))) : MRResult :=
  _make_request t c "POST" "symbols" none
    (some (Json.obj (create_symbol_data page_id x y width height category metadata)))

/-- VoynichApiClient.list_annotations (source lines 162-172). -/
def list_annotations (t : Transport) (c : VoynichApiClient)
    (page_id : Int) : MRResult :=
  _make_request t c "GET" ("annotations/page/" ++ toString page_id) none none

/-- The request body built by create_annotation (source lines 191-199). -/
def create_annotation_data (page_id x y width height : Int)
    (content : String) (is_public : Bool) : Json :=
  Json.obj [("pageId", Json.num page_id), ("x", Json.num x),
    ("y", Json.num y), ("width", Json.num width),
    ("height", Json.num height), ("content", Json.str content),
    ("isPublic", Json.bool is_public)]

/-- VoynichApiClient.create_annotation (source lines 174-201). -/
def create_annotation (t : Transport) (c : VoynichApiClient)
    (page_id x y width height : Int) (content : String)
    (is_public : Bool) : MRResult :=
  _make_request t c "POST" "annotations" none
    (some (create_annotation_data page_id x y width height content is_public))

/-- The ValueError message of vote_on_annotation (source line 215). -/
def vote_type_error_msg : String :=
  "Vote type must be \x27upvote\x27 or \x27downvote\x27"

/-- VoynichApiClient.vote_on_annotation (source lines 203-221): rejects
any vote type other than upvote and downvote before the network call. -/
def vote_on_annotation (t : Transport) (c : VoynichApiClient)
    (annotation_id : Int) (vote_type : String) : MRResult :=
  if vote_type ∉ (["upvote", "downvote"] : List String) then
    noCallValueError vote_type_error_msg
  else
    _make_request t c "POST"
      ("annotations/" ++ toString annotation_id ++ "/vote") none
      (some (Json.obj [("voteType", Json.str vote_type)]))

/-- VoynichApiClient.get_activity_feed (source lines 223-234). -/
def get_activity_feed (t : Transport) (c : VoynichApiClient)
    (limit offset : Int) : MRResult :=
  _make_request t c "GET" "activity-feed"
    (some [("limit", Json.num limit), ("offset", Json.num offset)]) none

/-- The valid leaderboard timeframes (source line 248). -/
def valid_timeframes : List String :=
  ["daily", "weekly", "monthly", "alltime"]

/-- The ValueError message of get_leaderboard (source line 250). -/
def timeframe_error_msg : String :=
  "Timeframe must be one of: " ++ String.intercalate ", " valid_timeframes

/-- VoynichApiClient.get_leaderboard (source lines 236-252): rejects
any timeframe outside valid_timeframes before the network call. -/
def get_leaderboard (t : Transport) (c : VoynichApiClient)
    (timeframe : String) : MRResult :=
  if timeframe ∉ valid_timeframes then
    noCallValueError timeframe_error_msg
  else
    _make_request t c "GET" "leaderboard"
      (some [("timeframe", Json.str timeframe)]) none

/-- VoynichApiClient.get_usage (source lines 254-261). -/
def get_usage (t : Transport) (c : VoynichApiClient) : MRResult :=
  _make_request t c "GET" "usage" none none

/-- format_json_output (source lines 264-266). -/
def format_json_output (j : Json) : String :=
  json_dumps j

/-- Field lookup in a JSON object (first match, as Python dict access
on parsed JSON). -/
def lookupField : List (String × Json) → String → Option Json
  | [], _ => none
  | (k, v) :: fs, key => if k == key then some v else lookupField fs key

/-- Access a field of a JSON value when it is an object. -/
def jsonGet : Json → String → Option Json
  | .obj fs, k => lookupField fs k
  | _, _ => none

/-- Whether a JSON object body contains a given key. -/
def hasKey (fields : List (String × Json)) (k : String) : Bool :=
  fields.any (fun p => p.1 == k)

/-- A parsed CLI subcommand with its arguments, as argparse delivers it
to main (source lines 277-334). -/
inductive Command where
  | listPages (offset limit : Int)
  | getPage (id : Int)
  | listSymbols (page_id : Int)
  | createSymbol (page_id x y width height : Int)
      (category : Option String) (metadata : Option (List (String × Json)))
  | listAnnotations (page_id : Int)
  | annotate (page_id x y width height : Int) (content : String)
      (is_public : Bool)
  | vote (id : Int) (vote_type : String)
  | activity (limit offset : Int)
  | leaderboard (timeframe : String)
  | usage

/-- The observable effect of one CLI invocation: network calls, printed
lines, and the return value of main (None is modelled as none; the
process exit status sys.exit(main()) maps None to 0). -/
structure MainResult where
  calls : List HttpRequest
  printed : List String
  ret : Option Int

/-- The process exit status produced by sys.exit(main()) (source line
396): sys.exit(None) exits with status 0, sys.exit(n) with status n. -/
def exitCode (r : MainResult) : Int :=
  match r.ret with
  | none => 0
  | some n => n

/-- Modelled from the spec: the argparse help text printed when no
subcommand is given (source line 337); its exact wording is generated
by the argparse library and is not in the source. -/
def help_text : String :=
  "usage: voynich_api_client.py [-h] [--base-url BASE_URL] [--api-key API_KEY] <command> ..."

/-- The missing-API-key message printed by main (source line 341). -/
def api_key_error_text : String :=
  "Error: API key is required. Provide it with --api-key or set the VOYNICH_API_KEY environment variable."

/-- str(e) for the exceptions the client raises, as printed by the
top-level handler in main (source line 389). -/
def pyStr : PyError → String
  | .valueError m => m
  | .httpError m _ => m
  | .jsonDecodeError => jsonDecodeErrorMsg

/-- The command dispatch of main (source lines 348-383). -/
def runCommand (t : Transport) (c : VoynichApiClient) : Command → MRResult
  | .listPages o l => list_pages t c o l
  | .getPage i => get_page t c i
  | .listSymbols p => list_symbols t c p
  | .createSymbol p x y w h cat md => create_symbol t c p x y w h cat md
  | .listAnnotations p => list_annotations t c p
  | .annotate p x y w h s b => create_annotation t c p x y w h s b
  | .vote i ty => vote_on_annotation t c i ty
  | .activity l o => get_activity_feed t c l o
  | .leaderboard tf => get_leaderboard t c tf
  | .usage => get_usage t c

/-- The CLI entry point main (source lines 269-392) after argument
parsing: with no subcommand it prints help and returns None; with an
empty API key it prints the error message and returns None; otherwise
it constructs the client, runs the command, prints the formatted result
and returns 0, or prints the error and returns 1. -/
def cli_main (t : Transport) (base_url api_key : String)
    (command : Option Command) : MainResult :=
  match command with
  | none => { calls := [], printed := [help_text], ret := none }
  | some cmd =>
    if api_key = "" then
      { calls := [], printed := [api_key_error_text], ret := none }
    else
      let client := VoynichApiClient.init base_url api_key
      let r := runCommand t client cmd
      match r.outcome with
      | .ok j =>
          { calls := r.calls, printed := r.printed ++ [format_json_output j],
            ret := some 0 }
      | .error e =>
          { calls := r.calls, printed := r.printed ++ ["Error: " ++ pyStr e],
            ret := some 1 }

/-- A demonstration client used for concrete instances. -/
def cDemo : VoynichApiClient :=
  VoynichApiClient.init "http://localhost:3000" "test-key"

/-- A mocked 200 response with an empty JSON object body. -/
def resp200 : HttpResponse :=
  { status_code := 200, reason := "OK",
    url := "http://localhost:3000/api/external/pages",
    text := "\x7b\x7d", json_body := some (Json.obj []) }

/-- A transport whose every response is resp200. -/
def tDemo : Transport :=
  fun _ => resp200

/-- The parsed JSON error body of the mocked 404 response. -/
def errBody : Json :=
  Json.obj [("error", Json.str "not found")]

/-- The mocked 404 response for get_page(999): standard reason phrase,
body parsing to errBody. -/
def resp404 : HttpResponse :=
  { status_code := 404, reason := "Not Found",
    url := "http://localhost:3000/api/external/pages/999",
    text := "\x7b\"error\": \"not found\"\x7d",
    json_body := some errBody }

/-- A transport whose every response is resp404. -/
def t404 : Transport :=
  fun _ => resp404

/-- The message of the HTTPError the mocked 404 produces. -/
def msg404 : String :=
  "404 Client Error: Not Found for url: http://localhost:3000/api/external/pages/999"

/-- The parsed body of the mocked 201 response for annotation creation. -/
def body42 : Json :=
  Json.obj [("data", Json.obj [("id", Json.num 42), ("folioNumber", Json.str "f1r")])]

/-- The mocked 201 response for annotation creation. -/
def resp201 : HttpResponse :=
  { status_code := 201, reason := "Created",
    url := "http://localhost:3000/api/external/annotations",
    text := "\x7b\"data\": \x7b\"id\": 42, \"folioNumber\": \"f1r\"\x7d\x7d",
    json_body := some body42 }

/-- A transport whose every response is resp201. -/
def t201 : Transport :=
  fun _ => resp201

/-- The request helper on a method whose uppercase form is GET. -/
theorem make_request_get_eq (t : Transport) (c : VoynichApiClient)
    (m e : String) (p : Option (List (String × Json))) (d : Option Json)
    (h : pyUpper m = "GET") :
    _make_request t c m e p d = handle_response [getReq c e p] (t (getReq c e p)) := by
  unfold _make_request
  rw [if_pos h]

/-- The request helper on a method whose uppercase form is POST. -/
theorem make_request_post_eq (t : Transport) (c : VoynichApiClient)
    (m e : String) (p : Option (List (String × Json))) (d : Option Json)
    (hg : pyUpper m ≠ "GET") (hp : pyUpper m = "POST") :
    _make_request t c m e p d = handle_response [postReq c e d] (t (postReq c e d)) := by
  unfold _make_request
  rw [if_neg hg, if_pos hp]

/-- The request helper on an unsupported method. -/
theorem make_request_other_eq (t : Transport) (c : VoynichApiClient)
    (m e : String) (p : Option (List (String × Json))) (d : Option Json)
    (hg : pyUpper m ≠ "GET") (hp : pyUpper m ≠ "POST") :
    _make_request t c m e p d = noCallValueError ("Unsupported HTTP method: " ++ m) := by
  unfold _make_request
  rw [if_neg hg, if_neg hp]

/-- Response handling reports exactly the calls it is given. -/
theorem handle_response_calls (cs : List HttpRequest) (r : HttpResponse) :
    (handle_response cs r).calls = cs := by
  unfold handle_response
  split
  · rfl
  · split <;> rfl

/-- Response handling never produces a ValueError. -/
theorem handle_response_no_valueError (cs : List HttpRequest) (r : HttpResponse)
    (s : String) :
    (handle_response cs r).outcome ≠ Except.error (PyError.valueError s) := by
  unfold handle_response
  split
  · intro hc
    simp only [MRResult.outcome] at hc
    injection hc with h1
    exact PyError.noConfusion h1
  · split
    · intro hc
      simp only [MRResult.outcome] at hc
      exact Except.noConfusion hc
    · intro hc
      simp only [MRResult.outcome] at hc
      injection hc with h1
      exact PyError.noConfusion h1

/-- Response handling on an error status with a JSON body: the raised
HTTPError carries the response, and the printed diagnostics contain the
serialized JSON error body. -/
theorem handle_response_error (cs : List HttpRequest) (r : HttpResponse)
    (j : Json) (h4 : 400 ≤ r.status_code) (h5 : r.status_code ≤ 599)
    (hj : r.json_body = some j) :
    handle_response cs r =
      { calls := cs
        printed := ["API request error: " ++ httpErrorMessage r,
                    "Error details: " ++ json_dumps j]
        outcome := .error (.httpError (httpErrorMessage r) r) } := by
  unfold handle_response
  rw [if_pos (And.intro h4 h5), hj]

/-- Response handling on a success status with a JSON body returns the
parsed body and prints nothing. -/
theorem handle_response_ok (cs : List HttpRequest) (r : HttpResponse)
    (j : Json) (hs : ¬ (400 ≤ r.status_code ∧ r.status_code ≤ 599))
    (hj : r.json_body = some j) :
    handle_response cs r = { calls := cs, printed := [], outcome := .ok j } := by
  unfold handle_response
  rw [if_neg hs, hj]

/-- Appending one trailing slash does not change the result of
stripping all trailing slashes. -/
theorem rstripSlashes_append_slash (b : String) :
    rstripSlashes (b ++ "/") = rstripSlashes b := by
  unfold rstripSlashes
  rw [String.data_append]
  simp [List.dropWhile_cons]

/-- Stripping leading slashes from a string that does not start with a
slash leaves it unchanged. -/
theorem lstripSlashes_eq_self (e : String) (h : e.data.head? ≠ some '/') :
    lstripSlashes e = e := by
  unfold lstripSlashes
  have hd : e.data.dropWhile (fun c => c == '/') = e.data := by
    cases he : e.data with
    | nil => rfl
    | cons a l =>
      have ha : (a == '/') = false := by
        rw [he] at h
        simp only [List.head?] at h
        simp only [beq_eq_false_iff_ne]
        intro hc
        exact h (by rw [hc])
      simp [List.dropWhile_cons, ha]
  rw [hd]

/-- Claim C2 (code bug): with any subcommand and an empty resolved API
key, main prints the explanatory message and performs no network call,
but it returns None, so sys.exit(main()) terminates the process with
exit status 0, not the non-zero status the specification requires. -/
theorem main_missing_api_key (t : Transport) (base_url : String) (cmd : Command) :
    cli_main t base_url "" (some cmd) =
      { calls := [], printed := [api_key_error_text], ret := none } ∧
    exitCode (cli_main t base_url "" (some cmd)) = 0 := by
  exact ⟨rfl, rfl⟩

/-- Claim C3 (confirmed): a vote type other than upvote or downvote
makes vote_on_annotation raise the ValueError with no network call and
nothing printed; a valid vote type issues exactly one POST to
annotations/(id)/vote with body (voteType: vote_type), and no
ValueError can be the outcome. -/
theorem vote_validation (t : Transport) (c : VoynichApiClient)
    (annotation_id : Int) (vote_type : String) :
    (vote_type ∉ (["upvote", "downvote"] : List String) →
      vote_on_annotation t c annotation_id vote_type =
        noCallValueError vote_type_error_msg) ∧
    (vote_type ∈ (["upvote", "downvote"] : List String) →
      ( vote_on_annotation t c annotation_id vote_type).calls =
        [postReq c ("annotations/" ++ toString annotation_id ++ "/vote")
          (some (Json.obj [("voteType", Json.str vote_type)]))] ∧
      ∀ s, ( vote_on_annotation t c annotation_id vote_type).outcome ≠
        Except.error (PyError.valueError s)) := by
  constructor
  · intro h
    unfold vote_on_annotation
    rw [if_pos h]
  · intro h
    unfold vote_on_annotation
    rw [if_neg (not_not_intro h)]
    rw [make_request_post_eq t c "POST"
      ("annotations/" ++ toString annotation_id ++ "/vote") none _ (by decide) (by decide)]
    exact ⟨handle_response_calls _ _, fun s => handle_response_no_valueError _ _ s⟩

/-- Witness for claim C3: the vote type sideways is rejected with no
call, and upvote issues the POST to annotations/7/vote. -/
theorem vote_validation_witness :
    vote_on_annotation tDemo cDemo 7 "sideways" =
      noCallValueError vote_type_error_msg ∧
    ( vote_on_annotation tDemo cDemo 7 "upvote").calls =
      [postReq cDemo "annotations/7/vote"
        (some (Json.obj [("voteType", Json.str "upvote")]))] :=
  ⟨(vote_validation tDemo cDemo 7 "sideways").1 (by decide),
   ((vote_validation tDemo cDemo 7 "upvote").2 (by decide)).1⟩

/-- Claim C4 (confirmed): a timeframe outside daily, weekly, monthly,
alltime makes get_leaderboard raise the ValueError with no network
call; a valid timeframe issues exactly one GET to the leaderboard
endpoint whose sole query parameter is that timeframe. -/
theorem leaderboard_validation (t : Transport) (c : VoynichApiClient)
    (timeframe : String) :
    (timeframe ∉ valid_timeframes →
      get_leaderboard t c timeframe = noCallValueError timeframe_error_msg) ∧
    (timeframe ∈ valid_timeframes →
      ( get_leaderboard t c timeframe).calls =
        [getReq c "leaderboard" (some [("timeframe", Json.str timeframe)])]) := by
  constructor
  · intro h
    unfold get_leaderboard
    rw [if_pos h]
  · intro h
    unfold get_leaderboard
    rw [if_neg (not_not_intro h)]
    rw [make_request_get_eq t c "GET" "leaderboard" _ none (by decide)]
    exact handle_response_calls _ _

/-- Witness for claim C4: hourly is rejected with no call, and weekly
issues the GET with the single timeframe parameter. -/
theorem leaderboard_validation_witness :
    get_leaderboard tDemo cDemo "hourly" = noCallValueError timeframe_error_msg ∧
    ( get_leaderboard tDemo cDemo "weekly").calls =
      [getReq cDemo "leaderboard" (some [("timeframe", Json.str "weekly")])] :=
  ⟨(leaderboard_validation tDemo cDemo "hourly").1 (by decide),
   (leaderboard_validation tDemo cDemo "weekly").2 (by decide)⟩

/-- Claim C5 (confirmed): for an endpoint that does not begin with a
slash, a client built from a base URL with a trailing slash and one
built without it produce the same request URL, namely the base URL
without trailing slashes followed by /api/external/ and the endpoint. -/
theorem base_url_normalization (b k e : String) (h : e.data.head? ≠ some '/') :
    makeUrl (VoynichApiClient.init (b ++ "/") k) e =
      makeUrl (VoynichApiClient.init b k) e ∧
    makeUrl (VoynichApiClient.init b k) e =
      rstripSlashes b ++ "/api/external/" ++ e := by
  simp only [makeUrl, VoynichApiClient.init]
  rw [rstripSlashes_append_slash, lstripSlashes_eq_self e h]
  exact ⟨rfl, rfl⟩

/-- Witness for claim C5 at a concrete base URL and endpoint. -/
theorem base_url_normalization_witness :
    makeUrl (VoynichApiClient.init ("http://localhost:3000" ++ "/") "k") "pages" =
      makeUrl (VoynichApiClient.init "http://localhost:3000" "k") "pages" ∧
    makeUrl (VoynichApiClient.init "http://localhost:3000" "k") "pages" =
      rstripSlashes "http://localhost:3000" ++ "/api/external/" ++ "pages" :=
  base_url_normalization "http://localhost:3000" "k" "pages" (by decide)

/-- Claim C7 (confirmed): list_pages issues exactly one GET to the
pages endpoint whose query parameters are exactly offset and limit, in
that order and nothing else, and the source defaults are offset 0 and
limit 20. -/
theorem list_pages_query_params (t : Transport) (c : VoynichApiClient)
    (offset limit : Int) :
    ( list_pages t c offset limit).calls =
      [getReq c "pages"
        (some [("offset", Json.num offset), ("limit", Json.num limit)])] ∧
    list_pages_default_offset = 0 ∧ list_pages_default_limit = 20 := by
  refine ⟨?_, rfl, rfl⟩
  unfold list_pages
  rw [make_request_get_eq t c "GET" "pages" _ none (by decide)]
  exact handle_response_calls _ _

/-- Claim C8 (confirmed): a method whose uppercased form is neither GET
nor POST makes the request helper raise the ValueError with no network
call performed. -/
theorem make_request_unsupported_method (t : Transport) (c : VoynichApiClient)
    (m e : String) (p : Option (List (String × Json))) (d : Option Json)
    (hg : pyUpper m ≠ "GET") (hp : pyUpper m ≠ "POST") :
    _make_request t c m e p d =
      noCallValueError ("Unsupported HTTP method: " ++ m) :=
  make_request_other_eq t c m e p d hg hp

/-- Witness for claim C8 at the concrete method DELETE. -/
theorem make_request_unsupported_method_witness :
    pyUpper "DELETE" ≠ "GET" ∧ pyUpper "DELETE" ≠ "POST" ∧
    _make_request tDemo cDemo "DELETE" "pages" none none =
      noCallValueError ("Unsupported HTTP method: " ++ "DELETE") :=
  ⟨by decide, by decide,
   make_request_unsupported_method tDemo cDemo "DELETE" "pages" none none
     (by decide) (by decide)⟩

/-- Claim C6 (confirmed): on any success response whose body parses as
JSON, create_annotation returns the parsed body unmodified and prints
nothing. -/
theorem create_annotation_passthrough (t : Transport) (c : VoynichApiClient)
    (page_id x y width height : Int) (content : String) (is_public : Bool)
    (j : Json)
    (hs : ¬ (400 ≤ (t (postReq c "annotations"
        (some (create_annotation_data page_id x y width height content is_public)))).status_code ∧
      (t (postReq c "annotations"
        (some (create_annotation_data page_id x y width height content is_public)))).status_code ≤ 599))
    (hj : (t (postReq c "annotations"
        (some (create_annotation_data page_id x y width height content is_public)))).json_body = some j) :
    ( create_annotation t c page_id x y width height content is_public).outcome =
      Except.ok j ∧
    ( create_annotation t c page_id x y width height content is_public).printed = [] := by
  unfold create_annotation
  rw [make_request_post_eq t c "POST" "annotations" none _ (by decide) (by decide)]
  rw [handle_response_ok _ _ j hs hj]
  exact ⟨rfl, rfl⟩

/-- Witness for claim C6: a mocked 201 with body containing data.id 42
is returned unmodified, and its data.id field is 42. -/
theorem create_annotation_passthrough_witness :
    ( create_annotation t201 cDemo 1 2 3 4 5 "A note" true).outcome =
      Except.ok body42 ∧
    ( create_annotation t201 cDemo 1 2 3 4 5 "A note" true).printed = [] ∧
    Option.bind (jsonGet body42 "data") (fun d => jsonGet d "id") =
      some (Json.num 42) := by
  have h := create_annotation_passthrough t201 cDemo 1 2 3 4 5 "A note" true
    body42 (by decide) rfl
  exact ⟨h.1, h.2, rfl⟩

/-- Claim C9 (confirmed): the create_symbol request body contains the
category key exactly when the category argument is truthy and the
metadata key exactly when the metadata argument is truthy; an empty
string category and an empty metadata dict are omitted exactly as an
absent argument; the call issues exactly one POST to symbols carrying
that body. -/
theorem create_symbol_optional_fields (t : Transport) (c : VoynichApiClient)
    (page_id x y width height : Int) (category : Option String)
    (metadata : Option (List (String × Json))) :
    hasKey (create_symbol_data page_id x y width height category metadata)
      "category" = pyTruthyOptStr category ∧
    hasKey (create_symbol_data page_id x y width height category metadata)
      "metadata" = pyTruthyOptDict metadata ∧
    create_symbol_data page_id x y width height (some "") metadata =
      create_symbol_data page_id x y width height none metadata ∧
    create_symbol_data page_id x y width height category (some []) =
      create_symbol_data page_id x y width height category none ∧
    ( create_symbol t c page_id x y width height category metadata).calls =
      [postReq c "symbols"
        (some (Json.obj (create_symbol_data page_id x y width height category metadata)))] := by
  refine ⟨?_, ?_, rfl, rfl, ?_⟩
  · simp only [create_symbol_data]
    cases hc : pyTruthyOptStr category <;> cases hm : pyTruthyOptDict metadata <;>
      simp [hasKey, hc, hm]
  · simp only [create_symbol_data]
    cases hc : pyTruthyOptStr category <;> cases hm : pyTruthyOptDict metadata <;>
      simp [hasKey, hc, hm]
  · unfold create_symbol
    rw [make_request_post_eq t c "POST" "symbols" none _ (by decide) (by decide)]
    exact handle_response_calls _ _

/-- Counterexample for claim C1: on the mocked 404 whose body parses to
the object with error: not found, get_page(999) fails with an HTTPError
whose message is built from the status code, reason phrase and URL, and
that message does not contain the substring not found. -/
theorem get_page_404_message_cex :
    ( get_page t404 cDemo 999).outcome =
      Except.error (PyError.httpError msg404 resp404) ∧
    strContains msg404 "not found" = false ∧
    resp404.json_body = some errBody := by
  exact ⟨rfl, by decide, rfl⟩

/-- Claim C1 (amended): on any non-success status whose body parses as
JSON, the request helper fails with the HTTPError carrying that
response (and hence the parsed JSON error body), after printing the
request error message and the serialized JSON error body as error
details; the error message itself is built from status code, reason
and URL. -/
theorem make_request_error_surfacing (t : Transport) (c : VoynichApiClient)
    (m e : String) (p : Option (List (String × Json))) (d : Option Json)
    (req : HttpRequest) (j : Json)
    (hreq : request_for c m e p d = some req)
    (h4 : 400 ≤ (t req).status_code) (h5 : (t req).status_code ≤ 599)
    (hj : (t req).json_body = some j) :
    ( _make_request t c m e p d).outcome =
      Except.error (PyError.httpError (httpErrorMessage (t req)) (t req)) ∧
    ( _make_request t c m e p d).printed =
      ["API request error: " ++ httpErrorMessage (t req),
       "Error details: " ++ json_dumps j] := by
  have heq : _make_request t c m e p d = handle_response [req] (t req) := by
    unfold request_for at hreq
    by_cases hg : pyUpper m = "GET"
    · rw [if_pos hg] at hreq
      injection hreq with hr
      rw [make_request_get_eq t c m e p d hg, hr]
    · rw [if_neg hg] at hreq
      by_cases hp : pyUpper m = "POST"
      · rw [if_pos hp] at hreq
        injection hreq with hr
        rw [make_request_post_eq t c m e p d hg hp, hr]
      · rw [if_neg hp] at hreq
        exact absurd hreq (by simp)
  rw [heq, handle_response_error [req] (t req) j h4 h5 hj]
  exact ⟨rfl, rfl⟩

/-- Witness for the amended claim C1: on the mocked 404 for
get_page(999) the helper fails with the HTTPError carrying the
response, and the printed error details contain not found. -/
theorem make_request_error_surfacing_witness :
    ( _make_request t404 cDemo "GET" "pages/999" none none).outcome =
      Except.error (PyError.httpError
        (httpErrorMessage (t404 (getReq cDemo "pages/999" none)))
        (t404 (getReq cDemo "pages/999" none))) ∧
    ( _make_request t404 cDemo "GET" "pages/999" none none).printed =
      ["API request error: " ++
         httpErrorMessage (t404 (getReq cDemo "pages/999" none)),
       "Error details: " ++ json_dumps errBody] ∧
    strContains ("Error details: " ++ json_dumps errBody) "not found" = true := by
  have h := make_request_error_surfacing t404 cDemo "GET" "pages/999" none none
    (getReq cDemo "pages/999" none) errBody rfl (by decide) (by decide) rfl
  exact ⟨h.1, h.2, by decide⟩

/-- Counterexample for claim C10: the request helper does not behave
identically on a method and its uppercased form, because the ValueError
message echoes the method string as given: patch and PATCH produce
different outcomes. -/
theorem make_request_method_case_cex :
    pyUpper "patch" = "PATCH" ∧
    _make_request tDemo cDemo "patch" "pages" none none ≠
      _make_request tDemo cDemo (pyUpper "patch") "pages" none none := by
  refine ⟨rfl, ?_⟩
  intro h
  have h2 : (Except.error (PyError.valueError "Unsupported HTTP method: patch") :
      Except PyError Json) =
      Except.error (PyError.valueError "Unsupported HTTP method: PATCH") :=
    congrArg MRResult.outcome h
  injection h2 with h3
  injection h3 with h4
  exact absurd h4 (by decide)

/-- Claim C10 (amended): method dispatch is case-insensitive for the
supported methods: whenever the uppercased method is GET or POST, the
helper behaves identically on the method and on its uppercased form;
for any other method it raises, before any network call, a ValueError
echoing the method string as given. -/
theorem make_request_method_case (t : Transport) (c : VoynichApiClient)
    (m e : String) (p : Option (List (String × Json))) (d : Option Json) :
    (pyUpper m = "GET" ∨ pyUpper m = "POST" →
      _make_request t c m e p d = _make_request t c (pyUpper m) e p d) ∧
    (pyUpper m ≠ "GET" → pyUpper m ≠ "POST" →
      _make_request t c m e p d =
        noCallValueError ("Unsupported HTTP method: " ++ m)) := by
  constructor
  · rintro (hg | hp)
    · rw [make_request_get_eq t c m e p d hg, hg,
        make_request_get_eq t c "GET" e p d (by decide)]
    · have hgg : pyUpper m ≠ "GET" := by rw [hp]; decide
      rw [make_request_post_eq t c m e p d hgg hp, hp,
        make_request_post_eq t c "POST" e p d (by decide) (by decide)]
  · intro hg hp
    exact make_request_other_eq t c m e p d hg hp

/-- Witness for the amended claim C10: the lower-case method get issues
the same request as GET. -/
theorem make_request_method_case_witness :
    _make_request tDemo cDemo "get" "pages" none none =
      _make_request tDemo cDemo (pyUpper "get") "pages" none none :=
  (make_request_method_case tDemo cDemo "get" "pages" none none).1
    (Or.inl (by decide))
